import Mathlib

set_option linter.unusedVariables false

/-!
Shallow embedding of the MCP (capability-server) discovery and bridging
subsystem of `src/core/mcp/mcp-client.js`, together with proofs of the
specification claims about it.

Modelling conventions:
* JavaScript string fields that may be absent are `Option String`;
  JS truthiness of such a field (`undefined` and `""` are falsy) is `truthy`.
* JS objects / `Map`s used as string-keyed dictionaries are association
  lists `List (String × α)` with first-match lookup (`lookupA`), key-preserving
  update (`mapSet`, the semantics of both `obj[k] = v` and `Map.set`) and
  object spread (`objSpread`, the semantics of expressions of the shape
  spread-a-then-spread-b, where the second object wins on key collision).
* Promise rejection / thrown errors are `Except String`; error objects are
  modelled by their message strings (single quotes that the source puts
  around interpolated names are elided from the message text).
* The side effects of the orchestrator (status publications, tool
  registrations, log lines, resource teardown, discovery-phase writes) are
  recorded as an event trace `List MCPEvent`.  `Promise.all` over the
  per-server pipelines is modelled as the map-order concatenation of the
  per-server traces: one valid interleaving.  The pipelines share no state
  other than the status registry and the external tool registry, so the
  per-server facts proved below (final status, registered tools) are
  interleaving-independent.
* The asynchronous `onerror` callback installed on a connected client is
  outside the per-server discovery pipeline and is not modelled.
-/

/-- JS truthiness of an optional string field: `undefined` and `""` are falsy. -/
def truthy : Option String → Bool
  | none => false
  | some s => s ≠ ""

/-- First-match lookup in a string-keyed association list
(the semantics of JS property access and `Map.get`). -/
def lookupA {α : Type} : List (String × α) → String → Option α
  | [], _ => none
  | (k2, v) :: rest, k => if k2 = k then some v else lookupA rest k

/-- Key update in a string-keyed association list: replace in place when the
key exists, append otherwise (the semantics of `obj[k] = v` and `Map.set`). -/
def mapSet {α : Type} (m : List (String × α)) (k : String) (v : α) : List (String × α) :=
  if m.any (fun p => decide (p.1 = k)) then
    m.map (fun p => if p.1 = k then (k, v) else p)
  else m ++ [(k, v)]

/-- Object spread of two string-keyed dictionaries, second one winning on
key collision (the semantics of spreading `a` and then `b` into one object
literal, observed at the lookup level). -/
def objSpread {α : Type} (a b : List (String × α)) : List (String × α) :=
  a.filter (fun p => b.all (fun q => !decide (q.1 = p.1))) ++ b

/-- Whether a character list starts with another one. -/
def charsHavePrefix : List Char → List Char → Bool
  | _, [] => true
  | [], _ :: _ => false
  | c :: cs, d :: ds => decide (c = d) && charsHavePrefix cs ds

/-- Whether a character list contains another one as a contiguous run. -/
def charsInclude : List Char → List Char → Bool
  | [], pat => pat.isEmpty
  | c :: cs, pat => charsHavePrefix (c :: cs) pat || charsInclude cs pat

/-- JS `String.prototype.includes`: substring containment. -/
def jsIncludes (s pattern : String) : Bool := charsInclude s.data pattern.data

/-- JS `String.prototype.startsWith`: prefix test. -/
def jsStartsWith (s pre : String) : Bool := charsHavePrefix s.data pre.data

/-- Decidable equality of outcomes. -/
instance {ε α : Type} [DecidableEq ε] [DecidableEq α] : DecidableEq (Except ε α) := fun x y =>
  match x, y with
  | .ok a, .ok b => decidable_of_iff (a = b) (by simp)
  | .error a, .error b => decidable_of_iff (a = b) (by simp)
  | .ok a, .error b => .isFalse (fun hc => Except.noConfusion hc)
  | .error a, .ok b => .isFalse (fun hc => Except.noConfusion hc)

/-- Source `MCP_DEFAULT_TIMEOUT_MSEC`: the default MCP timeout (10 minutes), line 20. -/
def MCP_DEFAULT_TIMEOUT_MSEC : Nat := 10 * 60 * 1000

/-- Source `MCPServerStatus`: connection status of an MCP server (lines 25-32). -/
inductive MCPServerStatus
  | disconnected
  | connecting
  | connected
deriving DecidableEq

/-- Source `MCPDiscoveryState`: overall MCP discovery state (lines 37-44). -/
inductive MCPDiscoveryState
  | not_started
  | in_progress
  | completed
deriving DecidableEq

/-- A JSON-schema value as carried by a function declaration; `emptyObject`
is the literal default object-type schema with no properties that
`discoverTools` substitutes when the declaration carries none. -/
inductive JsonSchema
  | emptyObject
  | raw (data : String)
deriving DecidableEq

/-- Source `MCPServerConfig`: one server descriptor from the configuration mapping.
All fields are optional in the source; `timeout` is in milliseconds,
`env` and `headers` are string-keyed dictionaries. -/
structure MCPServerConfig where
  command : Option String := none
  args : Option (List String) := none
  env : Option (List (String × String)) := none
  cwd : Option String := none
  httpUrl : Option String := none
  url : Option String := none
  headers : Option (List (String × String)) := none
  timeout : Option Nat := none
  includeTools : Option (List String) := none
  excludeTools : Option (List String) := none
deriving DecidableEq

/-- A function declaration as produced by `mcpToTool(...).tool()`:
`name` may be missing or empty. -/
structure FuncDecl where
  name : Option String := none
  description : Option String := none
  parametersJsonSchema : Option JsonSchema := none
deriving DecidableEq

/-- The value returned by `mcpCallableTool.tool()`: `functionDeclarations`
is `none` exactly when the value is not an array
(the `Array.isArray` check on line 235 fails). -/
structure MCPToolResponse where
  functionDeclarations : Option (List FuncDecl)
deriving DecidableEq

/-- Source `DiscoveredMCPTool` (lines 447-462): the proxy tool constructed for one
kept operation.  The `mcpCallableTool` back-reference is represented by the
owning server's name. -/
structure DiscoveredMCPTool where
  serverName : String
  name : String
  description : String
  schema : JsonSchema
  timeout : Nat
deriving DecidableEq

/-- The three transport bindings `createTransport` can construct
(lines 334-375).  Constructing one of these values opens no resource. -/
inductive Transport
  | streamableHTTP (url : String) (headers : Option (List (String × String)))
  | sse (url : String) (headers : Option (List (String × String)))
  | stdio (command : String) (args : List String)
      (env : List (String × String)) (cwd : Option String)
deriving DecidableEq

/-- Source `createTransport` (lines 330-380): transport selection by descriptor
field precedence `httpUrl`, then `url`, then `command`; the ambient
`process.env` read by the stdio branch is passed explicitly as `procEnv`.
The child environment is the spread of `process.env` and `config.env`. -/
def createTransport (mcpServerName : String) (mcpServerConfig : MCPServerConfig)
    (procEnv : List (String × String)) : Except String Transport :=
  if truthy mcpServerConfig.httpUrl then
    .ok (.streamableHTTP (mcpServerConfig.httpUrl.getD "") mcpServerConfig.headers)
  else if truthy mcpServerConfig.url then
    .ok (.sse (mcpServerConfig.url.getD "") mcpServerConfig.headers)
  else if truthy mcpServerConfig.command then
    .ok (.stdio (mcpServerConfig.command.getD "")
      (mcpServerConfig.args.getD [])
      (objSpread procEnv (mcpServerConfig.env.getD []))
      mcpServerConfig.cwd)
  else
    .error "Invalid configuration: missing httpUrl (for Streamable HTTP), url (for SSE), and command (for stdio)."

/-- Source `isEnabled` (lines 383-407): the include/exclude filter for one function
declaration.  A missing or empty name is skipped (with a `console.warn`);
`excludeTools` is checked before `includeTools`; an `includeTools` entry
matches the name exactly or as the parenthesis-qualified form that starts
with the name followed by an opening parenthesis. -/
def isEnabled (funcDecl : FuncDecl) (mcpServerName : String)
    (mcpServerConfig : MCPServerConfig) : Bool :=
  match funcDecl.name with
  | none => false
  | some nm =>
    if nm = "" then false
    else if (match mcpServerConfig.excludeTools with
             | some ex => ex.any (fun t => decide (t = nm))
             | none => false) then false
    else match mcpServerConfig.includeTools with
      | none => true
      | some inc => inc.any (fun tool => decide (tool = nm) || jsStartsWith tool (nm ++ "("))

/-- The `DiscoveredMCPTool` constructor call on lines 246-253: defaults for
description, schema and timeout. -/
def mkDiscoveredTool (mcpServerName : String) (mcpServerConfig : MCPServerConfig)
    (funcDecl : FuncDecl) : DiscoveredMCPTool :=
  { serverName := mcpServerName
    name := funcDecl.name.getD ""
    description := funcDecl.description.getD ""
    schema := funcDecl.parametersJsonSchema.getD .emptyObject
    timeout := mcpServerConfig.timeout.getD MCP_DEFAULT_TIMEOUT_MSEC }

/-- Source `discoverTools` (lines 226-263): from the outcome of
`mcpCallableTool.tool()` (an `Except`, error when that await rejected),
validate the declaration list, filter through `isEnabled`, wrap each kept
declaration, and fail when nothing remains.  All failures are re-wrapped by
the surrounding catch with the prefix on line 261. -/
def discoverTools (mcpServerName : String) (mcpServerConfig : MCPServerConfig)
    (response : Except String MCPToolResponse) : Except String (List DiscoveredMCPTool) :=
  match response with
  | .error e => .error ("Error discovering tools: " ++ e)
  | .ok r =>
    match r.functionDeclarations with
    | none => .error "Error discovering tools: Error: Server did not return valid function declarations."
    | some decls =>
      let discoveredTools :=
        (decls.filter (fun fd => isEnabled fd mcpServerName mcpServerConfig)).map
          (mkDiscoveredTool mcpServerName mcpServerConfig)
      if discoveredTools.isEmpty then
        .error "Error discovering tools: Error: No enabled tools found"
      else .ok discoveredTools

/-- One token produced by shell-quote `parse`: either a plain word
(a string, possibly after environment-variable expansion) or a
non-string entry (an operator or comment object). -/
inductive ShellToken
  | str (s : String)
  | op (o : String)
deriving DecidableEq

/-- Whether a shell token is a plain string (JS `typeof arg === "string"`). -/
def ShellToken.isStr : ShellToken → Bool
  | .str _ => true
  | .op _ => false

/-- The plain word carried by a string token. -/
def ShellToken.word : ShellToken → Option String
  | .str s => some s
  | .op _ => none

/-- Source `populateMcpServerCommand` (lines 146-163): when the ad-hoc command
string is truthy, tokenize it with the external shell-quote `parse`
(passed explicitly as `parse`); throw when any token is not a plain string;
otherwise assign a fresh descriptor holding only the first token as
`command` and the remaining tokens as `args` under the reserved server name
`mcp`, replacing any existing entry of that name. -/
def populateMcpServerCommand (mcpServers : List (String × MCPServerConfig))
    (mcpServerCommand : Option String) (parse : String → List ShellToken) :
    Except String (List (String × MCPServerConfig)) :=
  if truthy mcpServerCommand then
    let cmd := mcpServerCommand.getD ""
    let args := parse cmd
    if args.any (fun a => !a.isStr) then
      .error ("failed to parse mcpServerCommand: " ++ cmd)
    else
      let strs := args.filterMap ShellToken.word
      .ok (mapSet mcpServers "mcp" { command := strs.head?, args := some (strs.drop 1) })
  else .ok mcpServers

/-- Request options as passed to the protocol runtime
(`RequestOptions` of the MCP client library; only the timeout matters here). -/
structure RequestOptions where
  timeout : Option Nat := none
deriving DecidableEq

/-- One invocation of `mcpClient.request`: the request method, the operation
name inside `params` (for `tools/call`), and the options argument —
`none` when the call site passes no options at all. -/
structure ClientRequestCall where
  method : String
  paramsName : Option String := none
  options : Option RequestOptions := none
deriving DecidableEq

/-- The `tools/list` request issued by `mcpToTool(...).tool()`
(lines 416-418): no options argument is passed. -/
def mcpToToolListRequest : ClientRequestCall :=
  { method := "tools/list" }

/-- The `tools/call` request issued by `mcpToTool(...).execute(toolName, args)`
(lines 431-437): no options argument is passed, hence no timeout override. -/
def mcpToToolExecuteRequest (toolName : String) : ClientRequestCall :=
  { method := "tools/call", paramsName := some toolName }

/-- The request a `DiscoveredMCPTool.execute(params)` call issues
(line 466): it forwards through `mcpCallableTool.execute(this.name, params)`. -/
def DiscoveredMCPTool.executeRequest (t : DiscoveredMCPTool) : ClientRequestCall :=
  mcpToToolExecuteRequest t.name

/-- The options the patched `mcpClient.callTool` (lines 288-293) would pass:
the caller's options spread first, then `timeout` set to the descriptor
timeout or the default constant (so the descriptor value always wins). -/
def patchedCallToolOptions (mcpServerConfig : MCPServerConfig)
    (options : Option RequestOptions) : RequestOptions :=
  { options.getD {} with
    timeout := some (mcpServerConfig.timeout.getD MCP_DEFAULT_TIMEOUT_MSEC) }

/-- The timeout passed to `mcpClient.connect` (line 303). -/
def connectRequestTimeout (mcpServerConfig : MCPServerConfig) : Nat :=
  mcpServerConfig.timeout.getD MCP_DEFAULT_TIMEOUT_MSEC

/-- The concise connection error message built on lines 313-323
(single quotes around the server name elided). -/
def conciseConnectError (mcpServerName : String) (errorMessage : String) : String :=
  if jsIncludes errorMessage "ENOTFOUND" || jsIncludes errorMessage "ECONNREFUSED" then
    "Cannot connect to " ++ mcpServerName ++ " - server may be down or URL incorrect"
  else
    "Connection failed for " ++ mcpServerName ++ ": " ++ errorMessage

/-- The externally determined outcomes of one server's pipeline:
whether `mcpClient.connect` resolves or rejects (a rejection covers both a
handshake failure and the connect timeout expiring), and the outcome of the
`mcpCallableTool.tool()` discovery request. -/
structure ServerWorld where
  connectResult : Except String Unit
  toolResponse : Except String MCPToolResponse

/-- One observable side effect of the discovery subsystem. -/
inductive MCPEvent
  | statusUpdate (serverName : String) (status : MCPServerStatus)
  | registerTool (tool : DiscoveredMCPTool)
  | logError (message : String)
  | closeClient (serverName : String)
  | closeTransport (serverName : String)
  | phase (s : MCPDiscoveryState)
deriving DecidableEq

/-- Source `connectToMcpServer` (lines 275-327), with the effects it performs as a
trace: build the transport (failure propagates to the catch on line 310),
attempt the handshake with the world-determined outcome (on rejection the
transport is closed first, line 307), and wrap any failure into the concise
error message.  Client construction and the `callTool` patch are pure. -/
def connectToMcpServer (mcpServerName : String) (mcpServerConfig : MCPServerConfig)
    (procEnv : List (String × String)) (w : ServerWorld) :
    Except String Unit × List MCPEvent :=
  match createTransport mcpServerName mcpServerConfig procEnv with
  | .error e => (.error (conciseConnectError mcpServerName e), [])
  | .ok _t =>
    match w.connectResult with
    | .error e => (.error (conciseConnectError mcpServerName e), [.closeTransport mcpServerName])
    | .ok _ => (.ok (), [])

/-- Source `connectAndDiscover` (lines 175-213) as an event trace: publish
`connecting`; on a connect failure log and publish `disconnected`; on
success publish `connected`, run discovery, and either register every
discovered tool or (on a discovery failure) close the client, log, and
publish `disconnected`.  Every failure is caught inside this function:
it always settles, never rejecting. -/
def connectAndDiscover (mcpServerName : String) (mcpServerConfig : MCPServerConfig)
    (procEnv : List (String × String)) (w : ServerWorld) : List MCPEvent :=
  [.statusUpdate mcpServerName .connecting] ++
  match connectToMcpServer mcpServerName mcpServerConfig procEnv w with
  | (.error e, evs) =>
    evs ++ [.logError ("Error connecting to MCP server " ++ mcpServerName ++ ": " ++ e),
            .statusUpdate mcpServerName .disconnected]
  | (.ok _, evs) =>
    evs ++ [.statusUpdate mcpServerName .connected] ++
    match discoverTools mcpServerName mcpServerConfig w.toolResponse with
    | .ok tools => tools.map .registerTool
    | .error e =>
      [.closeClient mcpServerName,
       .logError ("Error connecting to MCP server " ++ mcpServerName ++ ": " ++ e),
       .statusUpdate mcpServerName .disconnected]

/-- Source `discoverMcpTools` (lines 122-143) as an event trace: the discovery
phase is set to `in_progress` before tokenization and to `completed` in the
`finally` block, so both writes appear even when `populateMcpServerCommand`
throws; otherwise one pipeline runs per configured server and the traces
are concatenated in map order (one valid interleaving of `Promise.all`).
The result is the promise outcome seen by the caller. -/
def discoverMcpTools (mcpServers : List (String × MCPServerConfig))
    (mcpServerCommand : Option String) (parse : String → List ShellToken)
    (procEnv : List (String × String)) (w : String → ServerWorld) :
    Except String Unit × List MCPEvent :=
  match populateMcpServerCommand mcpServers mcpServerCommand parse with
  | .error e => (.error e, [.phase .in_progress, .phase .completed])
  | .ok servers =>
    (.ok (), [.phase .in_progress]
      ++ (servers.map (fun p => connectAndDiscover p.1 p.2 procEnv (w p.1))).flatten
      ++ [.phase .completed])

/-- The server status registry (lines 49-103): the status map plus the
listener list in subscription order; listeners are identified by numbers. -/
structure StatusRegistry where
  statuses : List (String × MCPServerStatus) := []
  listeners : List Nat := []
deriving DecidableEq

/-- Source `addMCPStatusChangeListener` (lines 64-66): push onto the listener list. -/
def addMCPStatusChangeListener (st : StatusRegistry) (listener : Nat) : StatusRegistry :=
  { st with listeners := st.listeners ++ [listener] }

/-- Source `removeMCPStatusChangeListener` (lines 71-76): splice out the first
occurrence, if any. -/
def removeMCPStatusChangeListener (st : StatusRegistry) (listener : Nat) : StatusRegistry :=
  { st with listeners := st.listeners.erase listener }

/-- Source `updateMCPServerStatus` (lines 81-87): set the status and synchronously
notify every listener, in subscription order.  The second component is the
notification list delivered during the call. -/
def updateMCPServerStatus (st : StatusRegistry) (serverName : String)
    (status : MCPServerStatus) : StatusRegistry × List (Nat × String × MCPServerStatus) :=
  ({ st with statuses := mapSet st.statuses serverName status },
   st.listeners.map (fun l => (l, serverName, status)))

/-- Source `getMCPServerStatus` (lines 92-96): the JS `get(...) || DISCONNECTED`
default (status strings are non-empty, so `||` is exactly the default). -/
def getMCPServerStatus (st : StatusRegistry) (serverName : String) : MCPServerStatus :=
  (lookupA st.statuses serverName).getD .disconnected

/-- Source `getAllMCPServerStatuses` (lines 101-103): a snapshot copy of the map. -/
def getAllMCPServerStatuses (st : StatusRegistry) : List (String × MCPServerStatus) :=
  st.statuses

/-- The status updates a trace publishes for one server, in order. -/
def statusesFor (trace : List MCPEvent) (serverName : String) : List MCPServerStatus :=
  trace.filterMap (fun e => match e with
    | .statusUpdate n s => if n = serverName then some s else none
    | _ => none)

/-- The last status a trace publishes for one server. -/
def lastStatusFor (trace : List MCPEvent) (serverName : String) : Option MCPServerStatus :=
  (statusesFor trace serverName).getLast?

/-- The tools a trace registers, in order. -/
def registrations (trace : List MCPEvent) : List DiscoveredMCPTool :=
  trace.filterMap (fun e => match e with
    | .registerTool t => some t
    | _ => none)

/-- The discovery-phase writes a trace performs, in order. -/
def phaseWrites (trace : List MCPEvent) : List MCPDiscoveryState :=
  trace.filterMap (fun e => match e with
    | .phase s => some s
    | _ => none)

/-- Whether one server's pipeline fails at its connect step or at its
discovery step (the two failure points of `connectAndDiscover`). -/
def pipelineFails (mcpServerName : String) (mcpServerConfig : MCPServerConfig)
    (procEnv : List (String × String)) (w : ServerWorld) : Bool :=
  match (connectToMcpServer mcpServerName mcpServerConfig procEnv w).1 with
  | .error _ => true
  | .ok _ =>
    match discoverTools mcpServerName mcpServerConfig w.toolResponse with
    | .error _ => true
    | .ok _ => false

/-! Helper lemmas about the dictionary model and the trace observers. -/

theorem lookupA_eq_none_iff_all {α : Type} (b : List (String × α)) (x : String) :
    lookupA b x = none ↔ b.all (fun q => !decide (q.1 = x)) = true := by
  induction b with
  | nil => simp [lookupA]
  | cons q rest ih =>
    by_cases hq : q.1 = x
    · simp [lookupA, hq]
    · simp [lookupA, hq, ih]

theorem lookupA_map_set {α : Type} (m : List (String × α)) (k : String) (v : α)
    (h : m.any (fun p => decide (p.1 = k)) = true) :
    lookupA (m.map (fun p => if p.1 = k then (k, v) else p)) k = some v := by
  induction m with
  | nil => simp at h
  | cons p rest ih =>
    rw [List.map_cons]
    by_cases hp : p.1 = k
    · rw [if_pos hp]
      simp [lookupA]
    · rw [if_neg hp]
      have h2 : rest.any (fun p => decide (p.1 = k)) = true := by
        simpa [List.any_cons, hp] using h
      simp [lookupA, hp, ih h2]

theorem lookupA_append_not_found {α : Type} (m : List (String × α)) (k : String) (v : α)
    (h : m.any (fun p => decide (p.1 = k)) = false) :
    lookupA (m ++ [(k, v)]) k = some v := by
  induction m with
  | nil => simp [lookupA]
  | cons p rest ih =>
    simp only [List.any_cons, Bool.or_eq_false_iff, decide_eq_false_iff_not] at h
    simp [List.cons_append, lookupA, h.1, ih h.2]

theorem lookupA_mapSet {α : Type} (m : List (String × α)) (k : String) (v : α) :
    lookupA (mapSet m k v) k = some v := by
  unfold mapSet
  by_cases h : m.any (fun p => decide (p.1 = k)) = true
  · rw [if_pos h]
    exact lookupA_map_set m k v h
  · rw [if_neg h]
    exact lookupA_append_not_found m k v (Bool.eq_false_iff.mpr h)

theorem lookupA_objSpread_override {α : Type} (a b : List (String × α)) (k : String) (v : α)
    (h : lookupA b k = some v) : lookupA (objSpread a b) k = some v := by
  induction a with
  | nil => simpa [objSpread] using h
  | cons p rest ih =>
    simp only [objSpread, List.filter_cons]
    by_cases hp : (b.all fun q => !decide (q.1 = p.1)) = true
    · rw [if_pos hp]
      have hpk : ¬ p.1 = k := by
        intro hk
        rw [hk] at hp
        rw [(lookupA_eq_none_iff_all b k).mpr hp] at h
        exact Option.noConfusion h
      simpa [objSpread, List.cons_append, lookupA, hpk] using ih
    · rw [if_neg hp]
      simpa [objSpread] using ih

theorem lookupA_objSpread_default {α : Type} (a b : List (String × α)) (k : String)
    (h : lookupA b k = none) : lookupA (objSpread a b) k = lookupA a k := by
  induction a with
  | nil => simpa [objSpread, lookupA] using h
  | cons p rest ih =>
    simp only [objSpread, List.filter_cons]
    by_cases hp : (b.all fun q => !decide (q.1 = p.1)) = true
    · rw [if_pos hp]
      by_cases hpk : p.1 = k
      · simp [List.cons_append, lookupA, hpk]
      · simpa [objSpread, List.cons_append, lookupA, hpk] using ih
    · rw [if_neg hp]
      have hpk : ¬ p.1 = k := by
        intro hk
        rw [hk] at hp
        exact hp ((lookupA_eq_none_iff_all b k).mp h)
      simpa [objSpread, lookupA, hpk] using ih

theorem registrations_append (l1 l2 : List MCPEvent) :
    registrations (l1 ++ l2) = registrations l1 ++ registrations l2 := by
  simp [registrations, List.filterMap_append]

theorem registrations_flatten (L : List (List MCPEvent)) :
    registrations L.flatten = (L.map registrations).flatten := by
  induction L with
  | nil => simp [registrations]
  | cons l L ih => simp [registrations_append, ih]

theorem registrations_map_registerTool (ts : List DiscoveredMCPTool) :
    registrations (ts.map .registerTool) = ts := by
  induction ts with
  | nil => simp [registrations]
  | cons t ts ih => simpa [registrations] using ih

theorem statusesFor_append (l1 l2 : List MCPEvent) (n : String) :
    statusesFor (l1 ++ l2) n = statusesFor l1 n ++ statusesFor l2 n := by
  simp [statusesFor, List.filterMap_append]

theorem statusesFor_map_registerTool (ts : List DiscoveredMCPTool) (n : String) :
    statusesFor (ts.map .registerTool) n = [] := by
  induction ts with
  | nil => simp [statusesFor]
  | cons t ts ih => simp [statusesFor]

theorem connectToMcpServer_snd_no_status (n : String) (cfg : MCPServerConfig)
    (procEnv : List (String × String)) (w : ServerWorld) (n2 : String) :
    statusesFor (connectToMcpServer n cfg procEnv w).2 n2 = [] := by
  rcases hct : createTransport n cfg procEnv with e | t
  · simp [connectToMcpServer, hct, statusesFor]
  · rcases hcr : w.connectResult with e | u
    · simp [connectToMcpServer, hct, hcr, statusesFor]
    · simp [connectToMcpServer, hct, hcr, statusesFor]

theorem connectToMcpServer_ok_shape (n : String) (cfg : MCPServerConfig)
    (procEnv : List (String × String)) (w : ServerWorld)
    (h : (connectToMcpServer n cfg procEnv w).1 = .ok ()) :
    connectToMcpServer n cfg procEnv w = (.ok (), []) := by
  rcases hct : createTransport n cfg procEnv with e | t
  · simp [connectToMcpServer, hct] at h
  · rcases hcr : w.connectResult with e | u
    · simp [connectToMcpServer, hct, hcr] at h
    · simp [connectToMcpServer, hct, hcr]

theorem connectAndDiscover_connect_fail (n : String) (cfg : MCPServerConfig)
    (procEnv : List (String × String)) (w : ServerWorld) (e : String) (evs : List MCPEvent)
    (h : connectToMcpServer n cfg procEnv w = (.error e, evs)) :
    connectAndDiscover n cfg procEnv w =
      [MCPEvent.statusUpdate n .connecting] ++ evs ++
      [MCPEvent.logError ("Error connecting to MCP server " ++ n ++ ": " ++ e),
       MCPEvent.statusUpdate n .disconnected] := by
  simp [connectAndDiscover, h]

theorem connectAndDiscover_ok (n : String) (cfg : MCPServerConfig)
    (procEnv : List (String × String)) (w : ServerWorld) (tools : List DiscoveredMCPTool)
    (h1 : (connectToMcpServer n cfg procEnv w).1 = .ok ())
    (h2 : discoverTools n cfg w.toolResponse = .ok tools) :
    connectAndDiscover n cfg procEnv w =
      [MCPEvent.statusUpdate n .connecting, MCPEvent.statusUpdate n .connected]
        ++ tools.map .registerTool := by
  simp [connectAndDiscover, connectToMcpServer_ok_shape n cfg procEnv w h1, h2]

theorem connectAndDiscover_discover_fail (n : String) (cfg : MCPServerConfig)
    (procEnv : List (String × String)) (w : ServerWorld) (e : String)
    (h1 : (connectToMcpServer n cfg procEnv w).1 = .ok ())
    (h2 : discoverTools n cfg w.toolResponse = .error e) :
    connectAndDiscover n cfg procEnv w =
      [MCPEvent.statusUpdate n .connecting, MCPEvent.statusUpdate n .connected,
       MCPEvent.closeClient n,
       MCPEvent.logError ("Error connecting to MCP server " ++ n ++ ": " ++ e),
       MCPEvent.statusUpdate n .disconnected] := by
  simp [connectAndDiscover, connectToMcpServer_ok_shape n cfg procEnv w h1, h2]

theorem lastStatusFor_pipeline_fail (n : String) (cfg : MCPServerConfig)
    (procEnv : List (String × String)) (w : ServerWorld)
    (h : pipelineFails n cfg procEnv w = true) :
    lastStatusFor (connectAndDiscover n cfg procEnv w) n = some .disconnected := by
  rcases hc : (connectToMcpServer n cfg procEnv w).1 with e | u
  · rcases hfull : connectToMcpServer n cfg procEnv w with ⟨res, evs⟩
    rw [hfull] at hc
    subst hc
    rw [connectAndDiscover_connect_fail n cfg procEnv w e evs hfull]
    have hevs : statusesFor evs n = [] := by
      have := connectToMcpServer_snd_no_status n cfg procEnv w n
      rwa [hfull] at this
    unfold lastStatusFor
    rw [statusesFor_append, statusesFor_append, hevs]
    simp [statusesFor]
  · cases u
    rcases hd : discoverTools n cfg w.toolResponse with e | ts
    · rw [connectAndDiscover_discover_fail n cfg procEnv w e hc hd]
      simp [lastStatusFor, statusesFor]
    · exfalso
      unfold pipelineFails at h
      rw [hc, hd] at h
      simp at h

theorem registrations_pipeline_ok (n : String) (cfg : MCPServerConfig)
    (procEnv : List (String × String)) (w : ServerWorld) (tools : List DiscoveredMCPTool)
    (h1 : (connectToMcpServer n cfg procEnv w).1 = .ok ())
    (h2 : discoverTools n cfg w.toolResponse = .ok tools) :
    registrations (connectAndDiscover n cfg procEnv w) = tools := by
  rw [connectAndDiscover_ok n cfg procEnv w tools h1 h2, registrations_append,
    registrations_map_registerTool]
  simp [registrations]

theorem getLast?_append_singleton {α : Type} (l : List α) (x : α) :
    (l ++ [x]).getLast? = some x := by
  rw [List.getLast?_append_cons]
  rfl

theorem discoverTools_ok_shape (n : String) (cfg : MCPServerConfig)
    (resp : Except String MCPToolResponse) (ts : List DiscoveredMCPTool)
    (h : discoverTools n cfg resp = .ok ts) :
    ∃ decls, resp = .ok ⟨some decls⟩ ∧
      ts = (decls.filter (fun fd => isEnabled fd n cfg)).map (mkDiscoveredTool n cfg) := by
  rcases resp with e | r
  · simp [discoverTools] at h
  · obtain ⟨fds⟩ := r
    rcases fds with _ | decls
    · simp [discoverTools] at h
    · refine ⟨decls, rfl, ?_⟩
      simp only [discoverTools] at h
      split at h
      · exact absurd h (by simp)
      · exact (Except.ok.inj h).symm

/-- C4: for every server descriptor, `createTransport` selects the transport
by field precedence — streaming-HTTP URL (`httpUrl`) first, then plain
HTTP/SSE URL (`url`), then subprocess `command` — and fails with the
configuration error, producing no transport value, when none of the three
selectors is present. -/
theorem C4_createTransport_precedence (mcpServerName : String)
    (cfg : MCPServerConfig) (procEnv : List (String × String)) :
    (truthy cfg.httpUrl = true →
      createTransport mcpServerName cfg procEnv
        = .ok (.streamableHTTP (cfg.httpUrl.getD "") cfg.headers)) ∧
    (truthy cfg.httpUrl = false → truthy cfg.url = true →
      createTransport mcpServerName cfg procEnv
        = .ok (.sse (cfg.url.getD "") cfg.headers)) ∧
    (truthy cfg.httpUrl = false → truthy cfg.url = false → truthy cfg.command = true →
      createTransport mcpServerName cfg procEnv
        = .ok (.stdio (cfg.command.getD "") (cfg.args.getD [])
            (objSpread procEnv (cfg.env.getD [])) cfg.cwd)) ∧
    (truthy cfg.httpUrl = false → truthy cfg.url = false → truthy cfg.command = false →
      createTransport mcpServerName cfg procEnv
          = .error "Invalid configuration: missing httpUrl (for Streamable HTTP), url (for SSE), and command (for stdio)."
        ∧ ∀ t, createTransport mcpServerName cfg procEnv ≠ .ok t) :=
  ⟨fun h1 => by simp [createTransport, h1],
   fun h1 h2 => by simp [createTransport, h1, h2],
   fun h1 h2 h3 => by simp [createTransport, h1, h2, h3],
   fun h1 h2 h3 =>
     ⟨by simp [createTransport, h1, h2, h3],
      fun t => by simp [createTransport, h1, h2, h3]⟩⟩

theorem C4_witness :
    createTransport "s" { httpUrl := some "h", url := some "u", command := some "c" } []
      = .ok (.streamableHTTP "h" none) ∧
    createTransport "s" { url := some "u", command := some "c" } []
      = .ok (.sse "u" none) ∧
    createTransport "s" { command := some "c" } []
      = .ok (.stdio "c" [] [] none) ∧
    createTransport "s" { timeout := some 5 } []
      = .error "Invalid configuration: missing httpUrl (for Streamable HTTP), url (for SSE), and command (for stdio)." :=
  ⟨(C4_createTransport_precedence "s" { httpUrl := some "h", url := some "u", command := some "c" } []).1
      (by decide),
   (C4_createTransport_precedence "s" { url := some "u", command := some "c" } []).2.1
      (by decide) (by decide),
   (C4_createTransport_precedence "s" { command := some "c" } []).2.2.1
      (by decide) (by decide) (by decide),
   ((C4_createTransport_precedence "s" { timeout := some 5 } []).2.2.2
      (by decide) (by decide) (by decide)).1⟩

/-- C5: for the server status registry: getting the status of a name never
set returns `disconnected`; every `set` synchronously notifies every
subscribed listener in subscription order; and after subscribing one
listener, setting a server to `connecting` then `connected` delivers
exactly two notifications to that listener, in that order. -/
theorem C5_status_registry_contract (st : StatusRegistry) (serverName : String)
    (l : Nat) (s : MCPServerStatus) :
    (lookupA st.statuses serverName = none →
      getMCPServerStatus st serverName = .disconnected) ∧
    ((updateMCPServerStatus st serverName s).2
      = st.listeners.map (fun l2 => (l2, serverName, s))) ∧
    ((updateMCPServerStatus
        (addMCPStatusChangeListener { statuses := st.statuses, listeners := [] } l)
        serverName .connecting).2
      ++ (updateMCPServerStatus
            (updateMCPServerStatus
              (addMCPStatusChangeListener { statuses := st.statuses, listeners := [] } l)
              serverName .connecting).1
            serverName .connected).2
      = [(l, serverName, .connecting), (l, serverName, .connected)]) := by
  refine ⟨fun h => ?_, rfl, ?_⟩
  · simp [getMCPServerStatus, h]
  · simp [updateMCPServerStatus, addMCPStatusChangeListener]

theorem C5_witness :
    getMCPServerStatus { statuses := [("y", .connected)], listeners := [] } "x"
      = .disconnected ∧
    (updateMCPServerStatus { statuses := [], listeners := [7, 3] } "x" .connected).2
      = [(7, "x", .connected), (3, "x", .connected)] ∧
    ((updateMCPServerStatus
        (addMCPStatusChangeListener { statuses := [], listeners := [] } 5) "x" .connecting).2
      ++ (updateMCPServerStatus
            (updateMCPServerStatus
              (addMCPStatusChangeListener { statuses := [], listeners := [] } 5) "x" .connecting).1
            "x" .connected).2
      = [(5, "x", .connecting), (5, "x", .connected)]) :=
  ⟨(C5_status_registry_contract { statuses := [("y", .connected)], listeners := [] } "x" 0 .connected).1
      (by decide),
   (C5_status_registry_contract { statuses := [], listeners := [7, 3] } "x" 0 .connected).2.1,
   (C5_status_registry_contract { statuses := [], listeners := [] } "x" 5 .connected).2.2⟩

/-- C6: the code issues every tool invocation (`DiscoveredMCPTool.execute`,
through the local `mcpToTool` wrapper) as a bare `mcpClient.request` call
with no options argument, hence no per-call timeout override at all — even
though the patched `callTool` (which nothing on this path invokes) would
have supplied the descriptor timeout, the same value used as the
connection timeout.  This evaluates the code at the claim's failing
input: the configured per-call timeout never reaches the actual call. -/
theorem C6_tool_invocation_passes_no_timeout (t : DiscoveredMCPTool)
    (cfg : MCPServerConfig) (opts : Option RequestOptions) :
    (DiscoveredMCPTool.executeRequest t).options = none ∧
    (DiscoveredMCPTool.executeRequest t).method = "tools/call" ∧
    mcpToToolListRequest.options = none ∧
    (patchedCallToolOptions cfg opts).timeout = some (connectRequestTimeout cfg) :=
  ⟨rfl, rfl, rfl, rfl⟩

/-- C8: for every subprocess-form descriptor the child environment passed to
the stdio transport is the parent environment overlaid with the
descriptor-supplied variables, descriptor values winning on key collision;
and every kept operation's proxy tool carries the descriptor timeout, or
the 10-minute default constant when absent. -/
theorem C8_child_env_overlay_and_tool_timeout (procEnv cfgEnv : List (String × String))
    (k v : String) (mcpServerName : String) (cfg : MCPServerConfig)
    (resp : Except String MCPToolResponse) :
    (lookupA cfgEnv k = some v → lookupA (objSpread procEnv cfgEnv) k = some v) ∧
    (lookupA cfgEnv k = none →
      lookupA (objSpread procEnv cfgEnv) k = lookupA procEnv k) ∧
    (∀ c a e cw, createTransport mcpServerName cfg procEnv = .ok (.stdio c a e cw) →
      e = objSpread procEnv (cfg.env.getD [])) ∧
    (∀ ts, discoverTools mcpServerName cfg resp = .ok ts →
      ∀ t ∈ ts, t.timeout = cfg.timeout.getD MCP_DEFAULT_TIMEOUT_MSEC) ∧
    MCP_DEFAULT_TIMEOUT_MSEC = 10 * 60 * 1000 := by
  refine ⟨lookupA_objSpread_override procEnv cfgEnv k v,
          lookupA_objSpread_default procEnv cfgEnv k,
          fun c a e cw h => ?_, fun ts hts t htm => ?_, rfl⟩
  · cases hh : truthy cfg.httpUrl
    · cases hu : truthy cfg.url
      · cases hcm : truthy cfg.command
        · simp [createTransport, hh, hu, hcm] at h
        · simp only [createTransport, hh, hu, hcm, Bool.false_eq_true, if_false, if_true,
            Except.ok.injEq, Transport.stdio.injEq] at h
          exact h.2.2.1.symm
      · simp [createTransport, hh, hu] at h
    · simp [createTransport, hh] at h
  · obtain ⟨decls, hresp, rfl⟩ := discoverTools_ok_shape mcpServerName cfg resp ts hts
    obtain ⟨fd, hfd, rfl⟩ := List.mem_map.mp htm
    rfl

theorem C8_witness :
    lookupA (objSpread [("PATH", "p"), ("HOME", "h")] [("PATH", "q")]) "PATH" = some "q" ∧
    lookupA (objSpread [("PATH", "p"), ("HOME", "h")] [("PATH", "q")]) "HOME" = some "h" ∧
    (∀ c a e cw,
      createTransport "s" { command := some "c", env := some [("PATH", "q")] } [("PATH", "p")]
        = .ok (.stdio c a e cw) → e = objSpread [("PATH", "p")] [("PATH", "q")]) ∧
    (∀ t ∈ [mkDiscoveredTool "s" { timeout := some 5000 } { name := some "t" }],
      t.timeout = 5000) :=
  ⟨(C8_child_env_overlay_and_tool_timeout [("PATH", "p"), ("HOME", "h")] [("PATH", "q")]
      "PATH" "q" "s" {} (.error "")).1 rfl,
   (C8_child_env_overlay_and_tool_timeout [("PATH", "p"), ("HOME", "h")] [("PATH", "q")]
      "HOME" "h" "s" {} (.error "")).2.1 rfl,
   (C8_child_env_overlay_and_tool_timeout [("PATH", "p")] [("PATH", "q")] "x" "y" "s"
      { command := some "c", env := some [("PATH", "q")] } (.error "")).2.2.1,
   (C8_child_env_overlay_and_tool_timeout [] [] "x" "y" "s" { timeout := some 5000 }
      (.ok ⟨some [{ name := some "t" }]⟩)).2.2.2.1
      [mkDiscoveredTool "s" { timeout := some 5000 } { name := some "t" }] (by decide)⟩

/-- C10: if the ad-hoc command string fails to tokenize, `discoverMcpTools`
still writes the discovery phase as `in_progress` and then `completed`
(the `finally` block), the tokenization error propagates to the caller,
and no per-server pipeline is launched: no server status is published and
no tool is registered. -/
theorem C10_tokenization_failure_completes_phase
    (mcpServers : List (String × MCPServerConfig)) (cmd : String)
    (parse : String → List ShellToken) (procEnv : List (String × String))
    (w : String → ServerWorld)
    (hc : cmd ≠ "")
    (hbad : ((parse cmd).any fun a => !a.isStr) = true) :
    discoverMcpTools mcpServers (some cmd) parse procEnv w
      = (.error ("failed to parse mcpServerCommand: " ++ cmd),
         [.phase .in_progress, .phase .completed]) ∧
    phaseWrites (discoverMcpTools mcpServers (some cmd) parse procEnv w).2
      = [.in_progress, .completed] ∧
    (∀ n2, statusesFor (discoverMcpTools mcpServers (some cmd) parse procEnv w).2 n2 = []) ∧
    registrations (discoverMcpTools mcpServers (some cmd) parse procEnv w).2 = [] := by
  have hpop : populateMcpServerCommand mcpServers (some cmd) parse
      = .error ("failed to parse mcpServerCommand: " ++ cmd) := by
    simp [populateMcpServerCommand, truthy, hc, hbad]
  refine ⟨?_, ?_, fun n2 => ?_, ?_⟩ <;>
    simp [discoverMcpTools, hpop, phaseWrites, statusesFor, registrations]

theorem C10_witness :
    discoverMcpTools [("b", { command := some "c" })] (some "x ;")
        (fun _ => [.str "x", .op ";"]) []
        (fun _ => { connectResult := .ok (), toolResponse := .ok ⟨some []⟩ })
      = (.error "failed to parse mcpServerCommand: x ;",
         [.phase .in_progress, .phase .completed]) :=
  (C10_tokenization_failure_completes_phase [("b", { command := some "c" })] "x ;"
      (fun _ => [.str "x", .op ";"]) []
      (fun _ => { connectResult := .ok (), toolResponse := .ok ⟨some []⟩ })
      (by decide) (by decide)).1

/-- C2: for every discovery response handed to `discoverTools`: if the
declaration list is not a sequence the call fails with an error; if after
filtering zero operations remain it fails with an error; otherwise it
returns exactly the operations that pass the filter, one proxy tool each,
preserving the server-reported order. -/
theorem C2_discoverTools_validation_and_order (mcpServerName : String)
    (cfg : MCPServerConfig) (r : MCPToolResponse) :
    (r.functionDeclarations = none →
      discoverTools mcpServerName cfg (.ok r)
        = .error "Error discovering tools: Error: Server did not return valid function declarations.") ∧
    (∀ decls, r.functionDeclarations = some decls →
      (decls.filter (fun fd => isEnabled fd mcpServerName cfg) = [] →
        discoverTools mcpServerName cfg (.ok r)
          = .error "Error discovering tools: Error: No enabled tools found") ∧
      (decls.filter (fun fd => isEnabled fd mcpServerName cfg) ≠ [] →
        discoverTools mcpServerName cfg (.ok r)
          = .ok ((decls.filter (fun fd => isEnabled fd mcpServerName cfg)).map
              (mkDiscoveredTool mcpServerName cfg)))) := by
  refine ⟨fun h => by simp [discoverTools, h], fun decls h => ⟨fun hf => ?_, fun hf => ?_⟩⟩
  · simp [discoverTools, h, hf]
  · have hne : ¬ ((decls.filter (fun fd => isEnabled fd mcpServerName cfg)).map
        (mkDiscoveredTool mcpServerName cfg)).isEmpty = true := by
      simp only [List.isEmpty_iff, List.map_eq_nil_iff]
      exact hf
    simp [discoverTools, h, hne]

theorem C2_witness :
    discoverTools "s" {} (.ok ⟨none⟩)
      = .error "Error discovering tools: Error: Server did not return valid function declarations." ∧
    discoverTools "s" { includeTools := some ["other"] } (.ok ⟨some [{ name := some "t" }]⟩)
      = .error "Error discovering tools: Error: No enabled tools found" ∧
    discoverTools "s" {} (.ok ⟨some [{ name := some "t" }, { name := some "u" }]⟩)
      = .ok [mkDiscoveredTool "s" {} { name := some "t" },
             mkDiscoveredTool "s" {} { name := some "u" }] :=
  ⟨(C2_discoverTools_validation_and_order "s" {} ⟨none⟩).1 rfl,
   ((C2_discoverTools_validation_and_order "s" { includeTools := some ["other"] }
      ⟨some [{ name := some "t" }]⟩).2 [{ name := some "t" }] rfl).1 (by decide),
   ((C2_discoverTools_validation_and_order "s" {}
      ⟨some [{ name := some "t" }, { name := some "u" }]⟩).2
      [{ name := some "t" }, { name := some "u" }] rfl).2 (by decide)⟩

theorem filterMap_word_map_str (strs : List String) :
    (strs.map ShellToken.str).filterMap ShellToken.word = strs := by
  induction strs with
  | nil => rfl
  | cons s ss ih => simp [ShellToken.word, ih]

theorem filterMap_word_comp (strs : List String) :
    List.filterMap (ShellToken.word ∘ ShellToken.str) strs = strs := by
  induction strs with
  | nil => rfl
  | cons s ss ih => simp [ShellToken.word, Function.comp, ih]

theorem findSome?_word_comp (strs : List String) :
    List.findSome? (ShellToken.word ∘ ShellToken.str) strs = strs.head? := by
  cases strs with
  | nil => rfl
  | cons s ss => simp [List.findSome?_cons, ShellToken.word, Function.comp]

theorem any_notStr_map_str (strs : List String) :
    ((strs.map ShellToken.str).any fun a => !a.isStr) = false := by
  induction strs with
  | nil => rfl
  | cons s ss ih => simp [ShellToken.isStr, ih]

/-- C7: for every server map and ad-hoc command string (non-empty, hence
truthy): if the string tokenizes to plain words, the resolved mapping's
entry under the reserved name `mcp` is exactly the tokenized command
(first token as `command`, remaining tokens as `args`), wholly replacing
any pre-existing `mcp` entry; if tokenization yields a non-string token,
the error propagates to the caller. -/
theorem C7_adhoc_command_replaces_mcp_entry
    (servers : List (String × MCPServerConfig)) (cmd : String)
    (parse : String → List ShellToken)
    (hc : cmd ≠ "") :
    (((parse cmd).any fun a => !a.isStr) = true →
      populateMcpServerCommand servers (some cmd) parse
        = .error ("failed to parse mcpServerCommand: " ++ cmd)) ∧
    (∀ strs : List String, parse cmd = strs.map ShellToken.str →
      populateMcpServerCommand servers (some cmd) parse
        = .ok (mapSet servers "mcp"
            { command := strs.head?, args := some (strs.drop 1) }) ∧
      ∀ m, populateMcpServerCommand servers (some cmd) parse = .ok m →
        lookupA m "mcp" = some { command := strs.head?, args := some (strs.drop 1) }) := by
  constructor
  · intro hbad
    simp [populateMcpServerCommand, truthy, hc, hbad]
  · intro strs hstrs
    have hok : populateMcpServerCommand servers (some cmd) parse
        = .ok (mapSet servers "mcp"
            { command := strs.head?, args := some (strs.drop 1) }) := by
      simp [populateMcpServerCommand, truthy, hc, hstrs, any_notStr_map_str,
        filterMap_word_map_str, filterMap_word_comp, findSome?_word_comp]
    refine ⟨hok, fun m hm => ?_⟩
    rw [hok] at hm
    rw [← Except.ok.inj hm]
    exact lookupA_mapSet servers "mcp" _

theorem C7_witness :
    populateMcpServerCommand [("mcp", { url := some "u" })] (some "run x")
        (fun _ => [.str "run", .str "x"])
      = .ok (mapSet ([("mcp", { url := some "u" })] : List (String × MCPServerConfig)) "mcp"
          { command := some "run", args := some ["x"] }) ∧
    lookupA (mapSet ([("mcp", { url := some "u" })] : List (String × MCPServerConfig)) "mcp"
        { command := some "run", args := some ["x"] }) "mcp"
      = some { command := some "run", args := some ["x"] } ∧
    populateMcpServerCommand [] (some "x ;") (fun _ => [.str "x", .op ";"])
      = .error "failed to parse mcpServerCommand: x ;" :=
  ⟨((C7_adhoc_command_replaces_mcp_entry [("mcp", { url := some "u" })] "run x"
      (fun _ => [.str "run", .str "x"]) (by decide)).2 ["run", "x"] rfl).1,
   ((C7_adhoc_command_replaces_mcp_entry [("mcp", { url := some "u" })] "run x"
      (fun _ => [.str "run", .str "x"]) (by decide)).2 ["run", "x"] rfl).2 _
     ((C7_adhoc_command_replaces_mcp_entry [("mcp", { url := some "u" })] "run x"
      (fun _ => [.str "run", .str "x"]) (by decide)).2 ["run", "x"] rfl).1,
   (C7_adhoc_command_replaces_mcp_entry [] "x ;"
      (fun _ => [.str "x", .op ";"]) (by decide)).1 (by decide)⟩

/-- C9: for every server whose pipeline fails at any step — including tool
discovery failing after a successful connect — `connectAndDiscover`'s final
published status for that server is `disconnected`; and on a discovery
failure the client is closed before the status is reverted (the trace ends
`closeClient`, log, `disconnected`). -/
theorem C9_pipeline_failure_reverts_status (n : String) (cfg : MCPServerConfig)
    (procEnv : List (String × String)) (w : ServerWorld) :
    (pipelineFails n cfg procEnv w = true →
      lastStatusFor (connectAndDiscover n cfg procEnv w) n = some .disconnected) ∧
    (∀ e, (connectToMcpServer n cfg procEnv w).1 = .ok () →
      discoverTools n cfg w.toolResponse = .error e →
      connectAndDiscover n cfg procEnv w
        = [.statusUpdate n .connecting, .statusUpdate n .connected,
           .closeClient n,
           .logError ("Error connecting to MCP server " ++ n ++ ": " ++ e),
           .statusUpdate n .disconnected]) :=
  ⟨lastStatusFor_pipeline_fail n cfg procEnv w,
   fun e h1 h2 => connectAndDiscover_discover_fail n cfg procEnv w e h1 h2⟩

theorem C9_witness :
    lastStatusFor (connectAndDiscover "a" { command := some "c" } []
        { connectResult := .ok (), toolResponse := .ok ⟨some []⟩ }) "a"
      = some .disconnected ∧
    connectAndDiscover "a" { command := some "c" } []
        { connectResult := .ok (), toolResponse := .ok ⟨some []⟩ }
      = [.statusUpdate "a" .connecting, .statusUpdate "a" .connected, .closeClient "a",
         .logError "Error connecting to MCP server a: Error discovering tools: Error: No enabled tools found",
         .statusUpdate "a" .disconnected] :=
  ⟨(C9_pipeline_failure_reverts_status "a" { command := some "c" } []
      { connectResult := .ok (), toolResponse := .ok ⟨some []⟩ }).1 (by decide),
   (C9_pipeline_failure_reverts_status "a" { command := some "c" } []
      { connectResult := .ok (), toolResponse := .ok ⟨some []⟩ }).2
     "Error discovering tools: Error: No enabled tools found" (by decide) (by decide)⟩

/-- C1: for every server map and registry, `discoverMcpTools` never rejects
because an individual server's connect or discovery step failed: whenever
the ad-hoc command resolution succeeds the call resolves, the final
discovery-phase write is `completed`, the registered tools are exactly the
concatenation of every pipeline's registrations (so sibling servers'
tools are still registered), a failing server's last published status is
`disconnected`, and a succeeding server's pipeline registers exactly its
discovered tools. -/
theorem C1_discoverMcpTools_isolates_failures
    (mcpServers : List (String × MCPServerConfig)) (mcpServerCommand : Option String)
    (parse : String → List ShellToken) (procEnv : List (String × String))
    (w : String → ServerWorld) (servers : List (String × MCPServerConfig))
    (hpop : populateMcpServerCommand mcpServers mcpServerCommand parse = .ok servers) :
    (discoverMcpTools mcpServers mcpServerCommand parse procEnv w).1 = .ok () ∧
    (discoverMcpTools mcpServers mcpServerCommand parse procEnv w).2.getLast?
      = some (.phase .completed) ∧
    registrations (discoverMcpTools mcpServers mcpServerCommand parse procEnv w).2
      = (servers.map fun p =>
          registrations (connectAndDiscover p.1 p.2 procEnv (w p.1))).flatten ∧
    (∀ p ∈ servers, pipelineFails p.1 p.2 procEnv (w p.1) = true →
      lastStatusFor (connectAndDiscover p.1 p.2 procEnv (w p.1)) p.1
        = some .disconnected) ∧
    (∀ p ∈ servers, ∀ tools,
      (connectToMcpServer p.1 p.2 procEnv (w p.1)).1 = .ok () →
      discoverTools p.1 p.2 (w p.1).toolResponse = .ok tools →
      registrations (connectAndDiscover p.1 p.2 procEnv (w p.1)) = tools) := by
  have hmain : discoverMcpTools mcpServers mcpServerCommand parse procEnv w
      = (.ok (), ([MCPEvent.phase .in_progress]
          ++ (servers.map fun p => connectAndDiscover p.1 p.2 procEnv (w p.1)).flatten)
          ++ [MCPEvent.phase .completed]) := by
    simp [discoverMcpTools, hpop]
  refine ⟨by rw [hmain], ?_, ?_,
    fun p hp hf => lastStatusFor_pipeline_fail p.1 p.2 procEnv (w p.1) hf,
    fun p hp tools h1 h2 => registrations_pipeline_ok p.1 p.2 procEnv (w p.1) tools h1 h2⟩
  · rw [hmain]
    exact getLast?_append_singleton _ _
  · rw [hmain]
    show registrations (([MCPEvent.phase .in_progress]
        ++ (servers.map fun p => connectAndDiscover p.1 p.2 procEnv (w p.1)).flatten)
        ++ [MCPEvent.phase .completed]) = _
    have h1 : registrations [MCPEvent.phase .in_progress] = [] := rfl
    have h2 : registrations [MCPEvent.phase .completed] = [] := rfl
    rw [registrations_append, registrations_append, registrations_flatten, h1, h2]
    simp [List.map_map, Function.comp_def]

theorem C1_witness :
    (discoverMcpTools [("a", { command := some "c" }), ("b", { command := some "c" })] none
        (fun _ => []) []
        (fun n => if n = "a"
          then { connectResult := .error "timeout", toolResponse := .ok ⟨some []⟩ }
          else { connectResult := .ok (),
                 toolResponse := .ok ⟨some [{ name := some "t" }]⟩ })).1 = .ok () ∧
    (discoverMcpTools [("a", { command := some "c" }), ("b", { command := some "c" })] none
        (fun _ => []) []
        (fun n => if n = "a"
          then { connectResult := .error "timeout", toolResponse := .ok ⟨some []⟩ }
          else { connectResult := .ok (),
                 toolResponse := .ok ⟨some [{ name := some "t" }]⟩ })).2.getLast?
      = some (.phase .completed) ∧
    lastStatusFor (connectAndDiscover "a" { command := some "c" } []
        { connectResult := .error "timeout", toolResponse := .ok ⟨some []⟩ }) "a"
      = some .disconnected ∧
    registrations (connectAndDiscover "b" { command := some "c" } []
        { connectResult := .ok (), toolResponse := .ok ⟨some [{ name := some "t" }]⟩ })
      = [mkDiscoveredTool "b" { command := some "c" } { name := some "t" }] :=
  ⟨(C1_discoverMcpTools_isolates_failures
      [("a", { command := some "c" }), ("b", { command := some "c" })] none
      (fun _ => []) []
      (fun n => if n = "a"
        then { connectResult := .error "timeout", toolResponse := .ok ⟨some []⟩ }
        else { connectResult := .ok (),
               toolResponse := .ok ⟨some [{ name := some "t" }]⟩ })
      [("a", { command := some "c" }), ("b", { command := some "c" })] rfl).1,
   (C1_discoverMcpTools_isolates_failures
      [("a", { command := some "c" }), ("b", { command := some "c" })] none
      (fun _ => []) []
      (fun n => if n = "a"
        then { connectResult := .error "timeout", toolResponse := .ok ⟨some []⟩ }
        else { connectResult := .ok (),
               toolResponse := .ok ⟨some [{ name := some "t" }]⟩ })
      [("a", { command := some "c" }), ("b", { command := some "c" })] rfl).2.1,
   (C1_discoverMcpTools_isolates_failures
      [("a", { command := some "c" }), ("b", { command := some "c" })] none
      (fun _ => []) []
      (fun n => if n = "a"
        then { connectResult := .error "timeout", toolResponse := .ok ⟨some []⟩ }
        else { connectResult := .ok (),
               toolResponse := .ok ⟨some [{ name := some "t" }]⟩ })
      [("a", { command := some "c" }), ("b", { command := some "c" })] rfl).2.2.2.1
     ("a", { command := some "c" }) (by decide) (by decide),
   (C1_discoverMcpTools_isolates_failures
      [("a", { command := some "c" }), ("b", { command := some "c" })] none
      (fun _ => []) []
      (fun n => if n = "a"
        then { connectResult := .error "timeout", toolResponse := .ok ⟨some []⟩ }
        else { connectResult := .ok (),
               toolResponse := .ok ⟨some [{ name := some "t" }]⟩ })
      [("a", { command := some "c" }), ("b", { command := some "c" })] rfl).2.2.2.2
     ("b", { command := some "c" }) (by decide)
     [mkDiscoveredTool "b" { command := some "c" } { name := some "t" }]
     (by decide) (by decide)⟩

/-- C3: for every operation and server descriptor: an operation whose name
appears in `excludeTools` is dropped even if `includeTools` also matches it
(exclude takes precedence); an operation with no (JS-truthy) name is
skipped with a warning but not fatally — removing it from the declaration
list leaves the discovery outcome unchanged; and an operation is kept
exactly when its name is truthy, not excluded, and `includeTools` is
absent or contains an entry equal to the name or starting with the name
followed by an opening parenthesis. -/
theorem C3_isEnabled_filter_rule (fd : FuncDecl) (mcpServerName : String)
    (cfg : MCPServerConfig) :
    (∀ nm ex, fd.name = some nm → cfg.excludeTools = some ex → nm ∈ ex →
      isEnabled fd mcpServerName cfg = false) ∧
    (truthy fd.name = false → isEnabled fd mcpServerName cfg = false) ∧
    (∀ rest, truthy fd.name = false →
      discoverTools mcpServerName cfg (.ok ⟨some (fd :: rest)⟩)
        = discoverTools mcpServerName cfg (.ok ⟨some rest⟩)) ∧
    (isEnabled fd mcpServerName cfg = true ↔
      ∃ nm, fd.name = some nm ∧ nm ≠ "" ∧
        (∀ ex, cfg.excludeTools = some ex → nm ∉ ex) ∧
        (cfg.includeTools = none ∨
          ∃ inc, cfg.includeTools = some inc ∧
            ∃ t ∈ inc, (t = nm ∨ jsStartsWith t (nm ++ "(") = true))) := by
  have hiff : isEnabled fd mcpServerName cfg = true ↔
      ∃ nm, fd.name = some nm ∧ nm ≠ "" ∧
        (∀ ex, cfg.excludeTools = some ex → nm ∉ ex) ∧
        (cfg.includeTools = none ∨
          ∃ inc, cfg.includeTools = some inc ∧
            ∃ t ∈ inc, (t = nm ∨ jsStartsWith t (nm ++ "(") = true)) := by
    rcases hn : fd.name with _ | nm
    · simp [isEnabled, hn]
    · by_cases h0 : nm = ""
      · subst h0
        simp [isEnabled, hn]
      · rcases hex : cfg.excludeTools with _ | ex
        · rcases hinc : cfg.includeTools with _ | inc
          · simp [isEnabled, hn, h0, hex, hinc]
          · simp [isEnabled, hn, h0, hex, hinc, List.any_eq_true]
        · by_cases hmem : nm ∈ ex
          · have hany : ex.any (fun t => decide (t = nm)) = true :=
              List.any_eq_true.mpr ⟨nm, hmem, by simp⟩
            simp [isEnabled, hn, h0, hex, hany, hmem]
          · have hany : ex.any (fun t => decide (t = nm)) = false := by
              rw [Bool.eq_false_iff]
              intro hc
              obtain ⟨t, ht, hteq⟩ := List.any_eq_true.mp hc
              exact hmem (of_decide_eq_true hteq ▸ ht)
            rcases hinc : cfg.includeTools with _ | inc
            · simp [isEnabled, hn, h0, hex, hinc, hany, hmem]
            · simp [isEnabled, hn, h0, hex, hinc, hany, hmem, List.any_eq_true]
  have hfalsy : truthy fd.name = false → isEnabled fd mcpServerName cfg = false := by
    intro ht
    cases hb : isEnabled fd mcpServerName cfg
    · rfl
    · exfalso
      obtain ⟨nm, hnm, h0, -, -⟩ := hiff.mp hb
      rw [hnm] at ht
      simp [truthy, h0] at ht
  refine ⟨?_, hfalsy, ?_, hiff⟩
  · intro nm ex h1 h2 h3
    cases hb : isEnabled fd mcpServerName cfg
    · rfl
    · exfalso
      obtain ⟨nm2, hnm2, h0, hexc, -⟩ := hiff.mp hb
      rw [h1] at hnm2
      obtain rfl : nm2 = nm := (Option.some.inj hnm2).symm
      exact hexc ex h2 h3
  · intro rest ht
    have he := hfalsy ht
    simp [discoverTools, List.filter_cons, he]

theorem C3_witness :
    isEnabled { name := some "t" } "s" { includeTools := some ["t"], excludeTools := some ["t"] }
      = false ∧
    isEnabled { name := none } "s" {} = false ∧
    discoverTools "s" {} (.ok ⟨some [{ name := none }, { name := some "u" }]⟩)
      = discoverTools "s" {} (.ok ⟨some [{ name := some "u" }]⟩) ∧
    isEnabled { name := some "g" } "s" { includeTools := some ["g(sub)"] } = true :=
  ⟨(C3_isEnabled_filter_rule { name := some "t" } "s"
      { includeTools := some ["t"], excludeTools := some ["t"] }).1
      "t" ["t"] rfl rfl (by decide),
   (C3_isEnabled_filter_rule { name := none } "s" {}).2.1 rfl,
   (C3_isEnabled_filter_rule { name := none } "s" {}).2.2.1 [{ name := some "u" }] rfl,
   (C3_isEnabled_filter_rule { name := some "g" } "s"
      { includeTools := some ["g(sub)"] }).2.2.2.mpr
     ⟨"g", rfl, by decide, fun ex h => Option.noConfusion h,
      Or.inr ⟨["g(sub)"], rfl, "g(sub)", by simp, Or.inr (by decide)⟩⟩⟩
